import Mathlib

/-!
Verification development for the e-commerce backend (orders, products, users).

The definitions below are a shallow embedding of the Python source:

* monetary values are rationals (the source uses `Decimal`); persisted prices
  and totals are integer minor units (cents), exactly as in the SQLite schema;
* `pyInt` is the Python `int()` conversion applied to a `Decimal`
  (truncation toward zero);
* the database is an explicit record of row lists; every repository method
  becomes a pure function from a database value (plus a clock value `now`
  standing for CURRENT_TIMESTAMP) to a database value and a result;
* the `AFTER UPDATE` triggers that refresh `updated_at` are part of the
  embedded update functions;
* Python exceptions become `Except String` / error options, carrying the
  exact message format strings of the source.

Crucially, `CreateOrderUseCase.execute` commits each product stock update
through a separate repository call (its own transaction) before the order
insert transaction starts, so the embedding of the use case returns the
database state reached so far even when it returns an error.
-/

namespace ECom

/-- Python int() applied to a Decimal value: truncation toward zero. -/
def pyInt (q : ℚ) : ℤ := q.num.tdiv q.den

/-- Order states, from OrderStatus in orders/domain/models/order.py. -/
inductive OrderStatus
  | pending
  | confirmed
  | processing
  | shipped
  | delivered
  | cancelled
deriving DecidableEq, Repr

/-- Wire value of each order state (the lowercase tokens of the enum). -/
def OrderStatus.value : OrderStatus → String
  | .pending => "pending"
  | .confirmed => "confirmed"
  | .processing => "processing"
  | .shipped => "shipped"
  | .delivered => "delivered"
  | .cancelled => "cancelled"

/-- Transition table of Order.update_status (order.py lines 154-164). -/
def validTransitions : OrderStatus → List OrderStatus
  | .pending => [.confirmed, .cancelled]
  | .confirmed => [.processing, .cancelled]
  | .processing => [.shipped, .cancelled]
  | .shipped => [.delivered]
  | .delivered => []
  | .cancelled => []

/-- Order.update_status: accept the new status when the table allows it,
otherwise raise ValueError naming the rejected pair. -/
def orderUpdateStatus (current new : OrderStatus) : Except String OrderStatus :=
  if new ∈ validTransitions current then Except.ok new
  else Except.error
    ("Cannot transition from " ++ current.value ++ " to " ++ new.value)

/-- Row of the products table (price in integer cents, per the schema). -/
structure ProductRow where
  id : Nat
  name : String
  priceCents : ℤ
  stock : Nat
  category : String
  description : Option String
  isActive : Bool
  createdAt : Nat
  updatedAt : Nat
deriving DecidableEq, Repr

/-- Domain product model (price as Decimal). -/
structure Product where
  id : Nat
  name : String
  price : ℚ
  stock : Nat
  category : String
  description : Option String
  isActive : Bool
  createdAt : Nat
  updatedAt : Nat
deriving DecidableEq, Repr

/-- SQLiteProductRepository._row_to_product: cents back to Decimal. -/
def rowToProduct (r : ProductRow) : Product :=
  { id := r.id
    name := r.name
    price := (r.priceCents : ℚ) / 100
    stock := r.stock
    category := r.category
    description := r.description
    isActive := r.isActive
    createdAt := r.createdAt
    updatedAt := r.updatedAt }

/-- Product.can_fulfill_quantity: is_active and stock >= quantity > 0. -/
def Product.canFulfillQuantity (p : Product) (quantity : Nat) : Bool :=
  p.isActive && decide (quantity ≤ p.stock) && decide (0 < quantity)

/-- Row of the users table (only the fields the order flow reads). -/
structure UserRow where
  id : Nat
  isActive : Bool
deriving DecidableEq, Repr

/-- Row of the order_items table (money in integer cents). -/
structure OrderItemRow where
  productId : Nat
  productName : String
  quantity : Nat
  unitPriceCents : ℤ
  subtotalCents : ℤ
deriving DecidableEq, Repr

/-- Row of the orders table, with its items eagerly loaded. -/
structure OrderRow where
  id : Nat
  userId : Nat
  status : OrderStatus
  totalCents : ℤ
  shippingAddress : Option String
  notes : Option String
  createdAt : Nat
  updatedAt : Nat
  items : List OrderItemRow
deriving DecidableEq, Repr

/-- The shared SQLite database: one list of rows per table, plus the
AUTOINCREMENT counters. -/
structure DB where
  users : List UserRow
  products : List ProductRow
  orders : List OrderRow
  nextProductId : Nat
  nextOrderId : Nat
deriving DecidableEq, Repr

/-- SELECT * FROM products WHERE id = ? (ids are unique primary keys). -/
def findProductRow (ps : List ProductRow) (pid : Nat) : Option ProductRow :=
  ps.find? (fun r => r.id == pid)

/-- SELECT * FROM users WHERE id = ?. -/
def findUserRow (us : List UserRow) (uid : Nat) : Option UserRow :=
  us.find? (fun r => r.id == uid)

/-- SELECT * FROM orders WHERE id = ?. -/
def findOrderRow (os : List OrderRow) (oid : Nat) : Option OrderRow :=
  os.find? (fun r => r.id == oid)

/-- SQLiteProductRepository.get_by_id. -/
def productGetById (db : DB) (pid : Nat) : Option Product :=
  (findProductRow db.products pid).map rowToProduct

/-- ProductCreate DTO (post pydantic validation). -/
structure ProductCreate where
  name : String
  price : ℚ
  stock : Nat
  category : String
  description : Option String := none
deriving DecidableEq, Repr

/-- SQLiteProductRepository.create: store int(price * 100) cents,
insert with is_active = 1, re-read the row and hydrate it. -/
def productRepoCreate (db : DB) (pd : ProductCreate) (now : Nat) :
    DB × Product :=
  let row : ProductRow :=
    { id := db.nextProductId
      name := pd.name
      priceCents := pyInt (pd.price * 100)
      stock := pd.stock
      category := pd.category
      description := pd.description
      isActive := true
      createdAt := now
      updatedAt := now }
  ({ db with products := db.products ++ [row]
             nextProductId := db.nextProductId + 1 },
   rowToProduct row)

/-- ProductUpdate DTO. The outer Option records whether the field was
present in the payload (pydantic exclude_unset); the inner Option is the
value, which may be an explicit null. -/
structure ProductUpdate where
  name : Option (Option String) := none
  price : Option (Option ℚ) := none
  stock : Option (Option Nat) := none
  category : Option (Option String) := none
  description : Option (Option String) := none
  isActive : Option (Option Bool) := none
deriving DecidableEq, Repr

/-- Whether SQLiteProductRepository.update builds a non-empty SET list.
Fields other than description are skipped when present but null;
description is applied whenever present (source lines 217-244). -/
def ProductUpdate.hasField (u : ProductUpdate) : Bool :=
  (match u.name with | some (some _) => true | _ => false) ||
  (match u.price with | some (some _) => true | _ => false) ||
  (match u.stock with | some (some _) => true | _ => false) ||
  (match u.category with | some (some _) => true | _ => false) ||
  (match u.description with | some _ => true | _ => false) ||
  (match u.isActive with | some (some _) => true | _ => false)

/-- Effect of the dynamic UPDATE statement on one products row, including
the AFTER UPDATE trigger that sets updated_at. Price is stored as
int(price * 100) cents. -/
def applyProductUpdate (u : ProductUpdate) (now : Nat) (r : ProductRow) :
    ProductRow :=
  { id := r.id
    name := match u.name with | some (some v) => v | _ => r.name
    priceCents := match u.price with
      | some (some v) => pyInt (v * 100)
      | _ => r.priceCents
    stock := match u.stock with | some (some v) => v | _ => r.stock
    category := match u.category with | some (some v) => v | _ => r.category
    description := match u.description with | some v => v | _ => r.description
    isActive := match u.isActive with | some (some v) => v | _ => r.isActive
    createdAt := r.createdAt
    updatedAt := now }

/-- SQLiteProductRepository.update: return none when the product is absent;
with an empty SET list return the existing product without any write;
otherwise run the UPDATE (all rows WHERE id = ?), commit, and re-read. -/
def productRepoUpdate (db : DB) (pid : Nat) (u : ProductUpdate) (now : Nat) :
    DB × Option Product :=
  match findProductRow db.products pid with
  | none => (db, none)
  | some existing =>
    if u.hasField then
      let ps := db.products.map
        (fun r => if r.id == pid then applyProductUpdate u now r else r)
      ({ db with products := ps },
       (findProductRow ps pid).map rowToProduct)
    else
      (db, some (rowToProduct existing))

/-- OrderItemCreate DTO: product id and quantity. -/
structure OrderItemCreate where
  productId : Nat
  quantity : Nat
deriving DecidableEq, Repr

/-- OrderCreate DTO. The user id is resolved by the caller before the
use case runs; the DTO carries no status field. -/
structure OrderCreate where
  userId : Nat
  items : List OrderItemCreate
  shippingAddress : Option String := none
  notes : Option String := none
deriving DecidableEq, Repr

/-- Hydrated order item, as returned by _row_to_order_item
(cents back to Decimal). -/
structure OrderItem where
  productId : Nat
  productName : String
  quantity : Nat
  unitPrice : ℚ
  subtotal : ℚ
deriving DecidableEq, Repr

/-- Hydrated order, as returned by _row_to_order. -/
structure Order where
  id : Nat
  userId : Nat
  items : List OrderItem
  status : OrderStatus
  total : ℚ
  shippingAddress : Option String
  notes : Option String
deriving DecidableEq, Repr

/-- SQLiteOrderRepository._row_to_order_item. -/
def rowToOrderItem (r : OrderItemRow) : OrderItem :=
  { productId := r.productId
    productName := r.productName
    quantity := r.quantity
    unitPrice := (r.unitPriceCents : ℚ) / 100
    subtotal := (r.subtotalCents : ℚ) / 100 }

/-- SQLiteOrderRepository._row_to_order. -/
def rowToOrder (r : OrderRow) : Order :=
  { id := r.id
    userId := r.userId
    items := r.items.map rowToOrderItem
    status := r.status
    total := (r.totalCents : ℚ) / 100
    shippingAddress := r.shippingAddress
    notes := r.notes }

/-- Item-building loop of SQLiteOrderRepository.create (lines 86-107):
for each requested line fetch the product (ValueError when absent),
snapshot name and price, and accumulate
total_cents += int(price * 100) * quantity. The stored item carries
unit_price = int(price * 100) and subtotal = int(price * quantity * 100)
cents (lines 127-141). -/
def buildOrderItems (db : DB) :
    List OrderItemCreate → Except String (List OrderItemRow × ℤ)
  | [] => Except.ok ([], 0)
  | it :: rest =>
    match productGetById db it.productId with
    | none =>
      Except.error ("Product with id " ++ toString it.productId ++ " not found")
    | some p =>
      let row : OrderItemRow :=
        { productId := it.productId
          productName := p.name
          quantity := it.quantity
          unitPriceCents := pyInt (p.price * 100)
          subtotalCents := pyInt (p.price * (it.quantity : ℚ) * 100) }
      match buildOrderItems db rest with
      | Except.error e => Except.error e
      | Except.ok (rows, total) =>
        Except.ok (row :: rows, pyInt (p.price * 100) * (it.quantity : ℤ) + total)

/-- SQLiteOrderRepository.create: build the items, insert the order row
with the literal status value pending and the accumulated total, insert
the item rows, and return the re-read order. The whole method runs in one
transaction, so on error the database is unchanged. -/
def orderRepoCreate (db : DB) (req : OrderCreate) (now : Nat) :
    Except String (DB × OrderRow) :=
  match buildOrderItems db req.items with
  | Except.error e => Except.error e
  | Except.ok (rows, totalCents) =>
    let row : OrderRow :=
      { id := db.nextOrderId
        userId := req.userId
        status := OrderStatus.pending
        totalCents := totalCents
        shippingAddress := req.shippingAddress
        notes := req.notes
        createdAt := now
        updatedAt := now
        items := rows }
    Except.ok
      ({ db with orders := db.orders ++ [row]
                 nextOrderId := db.nextOrderId + 1 },
       row)

/-- OrderUpdate DTO: outer Option is payload presence, inner Option the
possibly-null value. -/
structure OrderUpdate where
  status : Option (Option OrderStatus) := none
  shippingAddress : Option (Option String) := none
  notes : Option (Option String) := none
deriving DecidableEq, Repr

/-- Whether SQLiteOrderRepository.update builds a non-empty SET list:
status is skipped when present but null; shipping_address and notes are
applied whenever present (source lines 245-260). -/
def OrderUpdate.hasField (u : OrderUpdate) : Bool :=
  (match u.status with | some (some _) => true | _ => false) ||
  (match u.shippingAddress with | some _ => true | _ => false) ||
  (match u.notes with | some _ => true | _ => false)

/-- Effect of the dynamic UPDATE statement on one orders row, including
the AFTER UPDATE trigger that sets updated_at. -/
def applyOrderUpdate (u : OrderUpdate) (now : Nat) (r : OrderRow) : OrderRow :=
  { id := r.id
    userId := r.userId
    status := match u.status with | some (some v) => v | _ => r.status
    totalCents := r.totalCents
    shippingAddress := match u.shippingAddress with
      | some v => v
      | _ => r.shippingAddress
    notes := match u.notes with | some v => v | _ => r.notes
    createdAt := r.createdAt
    updatedAt := now
    items := r.items }

/-- SQLiteOrderRepository.update: none when the order is absent; with an
empty SET list return the existing order without any write; otherwise run
the UPDATE, commit, and re-read. -/
def orderRepoUpdate (db : DB) (oid : Nat) (u : OrderUpdate) (now : Nat) :
    DB × Option OrderRow :=
  match findOrderRow db.orders oid with
  | none => (db, none)
  | some existing =>
    if u.hasField then
      let os := db.orders.map
        (fun r => if r.id == oid then applyOrderUpdate u now r else r)
      ({ db with orders := os }, findOrderRow os oid)
    else
      (db, some existing)

/-- WHERE clause of SQLiteOrderRepository.get_all and count: the user_id
filter is added only when the Python value is truthy (not None and not 0);
the status filter whenever a status is given. -/
def ordersMatchFilters (userId : Option Nat) (status : Option OrderStatus)
    (o : OrderRow) : Bool :=
  (match userId with
   | none => true
   | some u => if u == 0 then true else o.userId == u) &&
  (match status with
   | none => true
   | some s => decide (o.status = s))

/-- Insertion step for sorting in descending key order. -/
def insertDescBy {α : Type} (key : α → Nat) (x : α) : List α → List α
  | [] => [x]
  | y :: ys => if key y ≤ key x then x :: y :: ys else y :: insertDescBy key x ys

/-- Insertion sort by descending key, modelling ORDER BY key DESC. -/
def sortDescBy {α : Type} (key : α → Nat) : List α → List α
  | [] => []
  | x :: xs => insertDescBy key x (sortDescBy key xs)

/-- SQLiteOrderRepository.get_all: WHERE filters, then the hardcoded
ORDER BY created_at DESC, then LIMIT ? OFFSET ?. The source function has
no sort parameters. -/
def orderRepoGetAll (db : DB) (userId : Option Nat)
    (status : Option OrderStatus) (skip limit : Nat) : List OrderRow :=
  (((sortDescBy (fun o => o.createdAt)
      (db.orders.filter (ordersMatchFilters userId status))).drop skip).take
    limit)

/-- SQLiteOrderRepository.count: COUNT(*) under the same WHERE filters,
with no pagination parameters. -/
def orderRepoCount (db : DB) (userId : Option Nat)
    (status : Option OrderStatus) : Nat :=
  (db.orders.filter (ordersMatchFilters userId status)).length

/-- Per-line validation loop of CreateOrderUseCase.execute (lines 78-103):
resolve the product, check active and stock, then persist the decremented
stock through SQLiteProductRepository.update — a separate committed
transaction per line. The function returns the database reached so far
together with the first error, so partial stock writes stay durable. -/
def processLines (db : DB) (now : Nat) :
    List OrderItemCreate → DB × Option String
  | [] => (db, none)
  | it :: rest =>
    match productGetById db it.productId with
    | none =>
      (db, some ("Product with id " ++ toString it.productId ++ " not found"))
    | some p =>
      if !p.isActive then
        (db, some ("Product with id " ++ toString it.productId ++
          " is not active"))
      else if !(p.canFulfillQuantity it.quantity) then
        (db, some ("Insufficient stock for product " ++ toString it.productId
          ++ ". Requested: " ++ toString it.quantity ++ ", Available: "
          ++ toString p.stock))
      else
        let db2 := (productRepoUpdate db it.productId
          { stock := some (some (p.stock - it.quantity)) } now).1
        processLines db2 now rest

/-- CreateOrderUseCase.execute: user existence and activity checks, the
per-line stock loop, then the order repository create. The returned
database is the durable state, also on failure. -/
def createOrderExecute (db : DB) (req : OrderCreate) (now : Nat) :
    DB × Except String OrderRow :=
  match findUserRow db.users req.userId with
  | none =>
    (db, Except.error ("User with id " ++ toString req.userId ++ " not found"))
  | some u =>
    if !u.isActive then
      (db, Except.error
        ("User with id " ++ toString req.userId ++ " is not active"))
    else
      match processLines db now req.items with
      | (db1, some e) => (db1, Except.error e)
      | (db1, none) =>
        match orderRepoCreate db1 req now with
        | Except.error e => (db1, Except.error e)
        | Except.ok (db2, row) => (db2, Except.ok row)

/-! Concrete fixtures used by closed theorems and witnesses. -/

/-- An active user with id 1. -/
def exUser : UserRow := ⟨1, true⟩

/-- An inactive user with id 2. -/
def exInactiveUser : UserRow := ⟨2, false⟩

/-- Product id 1: price 10.00 stored as 1000 cents, stock 5, active. -/
def exLaptop : ProductRow :=
  ⟨1, "Laptop", 1000, 5, "Electronics", none, true, 0, 0⟩

/-- Product id 2: price 5.00 stored as 500 cents, stock 1, active. -/
def exMouse : ProductRow := ⟨2, "Mouse", 500, 1, "Electronics", none, true, 0, 0⟩

/-- Database with one active user, one inactive user and two products. -/
def exDB : DB := ⟨[exUser, exInactiveUser], [exLaptop, exMouse], [], 3, 1⟩

/-- Create-order request whose second line exceeds the stock of product 2. -/
def exPartialFailReq : OrderCreate := { userId := 1, items := [⟨1, 2⟩, ⟨2, 5⟩] }

/-- Create-order request with two lines for the same product. -/
def exTwoLineReq : OrderCreate := { userId := 1, items := [⟨1, 2⟩, ⟨1, 3⟩] }

/-- Create-order request naming the inactive user. -/
def exInactiveUserReq : OrderCreate := { userId := 2, items := [⟨1, 1⟩] }

/-- Create-order request naming an absent user. -/
def exAbsentUserReq : OrderCreate := { userId := 9, items := [⟨1, 1⟩] }

/-- Order row created at time 10 with total 10.00. -/
def exOrderA : OrderRow :=
  ⟨1, 1, OrderStatus.pending, 1000, none, none, 10, 10, []⟩

/-- Order row created at time 20 with total 50.00. -/
def exOrderB : OrderRow :=
  ⟨2, 1, OrderStatus.confirmed, 5000, none, none, 20, 20, []⟩

/-- Database holding the two order rows. -/
def exOrdersDB : DB := ⟨[exUser], [exLaptop, exMouse], [exOrderA, exOrderB], 3, 3⟩

/-- Partial-update payload setting only the stock field. -/
def exStockPayload : ProductUpdate := { stock := some (some 3) }

/-- Partial-update payload setting only the notes field. -/
def exNotesPayload : OrderUpdate := { notes := some (some "rush") }

/-- Empty partial-update payload. -/
def exEmptyProductPayload : ProductUpdate := {}

/-- Empty order partial-update payload. -/
def exEmptyOrderPayload : OrderUpdate := {}

/-- Result of the successful creation of exTwoLineReq. -/
def exResult : DB × Except String OrderRow :=
  createOrderExecute exDB exTwoLineReq 0

/-- Order row produced by the successful creation of exTwoLineReq. -/
def exResultRow : OrderRow :=
  (exResult.2.toOption).getD ⟨0, 0, OrderStatus.pending, 0, none, none, 0, 0, []⟩

/-! Helper lemmas. -/

/-- pyInt is the identity on integer-valued rationals. -/
theorem pyInt_intCast (n : ℤ) : pyInt (n : ℚ) = n := by
  simp [pyInt, Rat.num_intCast, Rat.den_intCast]

/-- A rational with denominator 1 is its own numerator. -/
theorem ratCast_num_of_den_one (q : ℚ) (h : q.den = 1) : (q.num : ℚ) = q := by
  rw [← Rat.num_div_den q, h]
  simp

/-- pyInt of a rational with denominator 1, cast back, is the identity. -/
theorem pyInt_cast_of_den_one (q : ℚ) (h : q.den = 1) : (pyInt q : ℚ) = q := by
  have h1 : pyInt q = q.num := by
    simp [pyInt, h]
  rw [h1]
  exact ratCast_num_of_den_one q h

/-- Storing a hydrated price of c cents back as int(price * 100) recovers c. -/
theorem pyInt_price_cents (c : ℤ) : pyInt ((c : ℚ) / 100 * 100) = c := by
  have h : ((c : ℚ) / 100 * 100) = (c : ℚ) := div_mul_cancel₀ (c : ℚ) (by norm_num)
  rw [h]
  exact pyInt_intCast c

/-- Storing a subtotal of a c-cent price times a quantity recovers c * q. -/
theorem pyInt_subtotal_cents (c : ℤ) (q : ℕ) :
    pyInt ((c : ℚ) / 100 * (q : ℚ) * 100) = c * q := by
  have h : ((c : ℚ) / 100 * (q : ℚ) * 100) = ((c * (q : ℤ) : ℤ) : ℚ) := by
    push_cast
    ring
  rw [h]
  exact pyInt_intCast _

/-- Cast of an integer list sum divided by 100 equals the sum of the
pointwise casts divided by 100. -/
theorem intListSum_cast_div100 (l : List ℤ) :
    ((l.sum : ℤ) : ℚ) / 100 = (l.map (fun c : ℤ => ((c : ℚ) / 100))).sum := by
  induction l with
  | nil => simp
  | cons a as ih =>
    rw [List.map_cons, List.sum_cons, List.sum_cons, Int.cast_add, add_div, ih]

/-- Updating in place every row matching a predicate, with a predicate-
preserving function, maps find? through the function. -/
theorem find?_map_update {α : Type} (p : α → Bool) (f : α → α)
    (hf : ∀ x, p (f x) = p x) (l : List α) (r : α)
    (h : l.find? p = some r) :
    (l.map (fun x => if p x then f x else x)).find? p = some (f r) := by
  induction l with
  | nil => simp at h
  | cons a as ih =>
    by_cases hp : p a = true
    · rw [List.find?_cons_of_pos _ hp] at h
      injection h with h
      subst h
      rw [List.map_cons, if_pos hp, List.find?_cons_of_pos _ (by rw [hf]; exact hp)]
    · rw [List.find?_cons_of_neg _ (by simpa using hp)] at h
      rw [List.map_cons, if_neg hp,
        List.find?_cons_of_neg _ (by simpa using hp)]
      exact ih h

/-- Membership in the insertion step of the descending sort. -/
theorem mem_insertDescBy {α : Type} (key : α → Nat) (x a : α) (l : List α) :
    a ∈ insertDescBy key x l ↔ a = x ∨ a ∈ l := by
  induction l with
  | nil => simp [insertDescBy]
  | cons y ys ih =>
    unfold insertDescBy
    by_cases hk : key y ≤ key x
    · simp [hk]
    · simp only [if_neg hk, List.mem_cons, ih]
      tauto

/-- Membership is preserved by the descending sort. -/
theorem mem_sortDescBy {α : Type} (key : α → Nat) (a : α) (l : List α) :
    a ∈ sortDescBy key l ↔ a ∈ l := by
  induction l with
  | nil => simp [sortDescBy]
  | cons y ys ih =>
    unfold sortDescBy
    rw [mem_insertDescBy, ih, List.mem_cons]

/-- Unpacking a successful product lookup. -/
theorem productGetById_eq_some (db : DB) (pid : Nat) (p : Product)
    (h : productGetById db pid = some p) :
    ∃ r, findProductRow db.products pid = some r ∧ p = rowToProduct r := by
  unfold productGetById at h
  rcases Option.map_eq_some'.mp h with ⟨r, hr, hp⟩
  exact ⟨r, hr, hp.symm⟩

/-- Specification of the item-building loop of the order repository: on
success every produced row satisfies unit price times quantity equals the
stored subtotal in cents, and the accumulated total is the sum of the
stored subtotals. -/
theorem buildOrderItems_spec (db : DB) :
    ∀ (its : List OrderItemCreate) (rows : List OrderItemRow) (tot : ℤ),
      buildOrderItems db its = Except.ok (rows, tot) →
      (∀ r ∈ rows, r.unitPriceCents * (r.quantity : ℤ) = r.subtotalCents) ∧
      tot = (rows.map (fun r => r.subtotalCents)).sum := by
  intro its
  induction its with
  | nil =>
    intro rows tot h
    unfold buildOrderItems at h
    injection h with h
    injection h with h1 h2
    subst h1
    subst h2
    exact ⟨by simp, by simp⟩
  | cons it rest ih =>
    intro rows tot h
    unfold buildOrderItems at h
    cases hp : productGetById db it.productId with
    | none => rw [hp] at h; exact absurd h (by simp)
    | some p =>
      rw [hp] at h
      cases hb : buildOrderItems db rest with
      | error e => rw [hb] at h; exact absurd h (by simp)
      | ok pr =>
        obtain ⟨rows1, tot1⟩ := pr
        rw [hb] at h
        injection h with h
        injection h with h1 h2
        subst h1
        subst h2
        obtain ⟨r0, hr0, hpr0⟩ := productGetById_eq_some db it.productId p hp
        have hprice : p.price = (r0.priceCents : ℚ) / 100 := by
          rw [hpr0]
          rfl
        obtain ⟨ihrel, ihsum⟩ := ih rows1 tot1 hb
        constructor
        · intro r hr
          rcases List.mem_cons.mp hr with hhead | htail
          · subst hhead
            show pyInt (p.price * 100) * (it.quantity : ℤ)
              = pyInt (p.price * (it.quantity : ℚ) * 100)
            rw [hprice, pyInt_price_cents, pyInt_subtotal_cents]
          · exact ihrel r htail
        · simp only [List.map_cons, List.sum_cons]
          rw [← ihsum]
          show pyInt (p.price * 100) * (it.quantity : ℤ) + tot1
            = pyInt (p.price * (it.quantity : ℚ) * 100) + tot1
          rw [hprice, pyInt_price_cents, pyInt_subtotal_cents]

/-- Decomposition of a successful order repository create. -/
theorem orderRepoCreate_ok (db db2 : DB) (req : OrderCreate) (now : Nat)
    (row : OrderRow) (h : orderRepoCreate db req now = Except.ok (db2, row)) :
    ∃ rows tot, buildOrderItems db req.items = Except.ok (rows, tot) ∧
      row.status = OrderStatus.pending ∧ row.items = rows ∧
      row.totalCents = tot ∧ db2.orders = db.orders ++ [row] := by
  unfold orderRepoCreate at h
  cases hb : buildOrderItems db req.items with
  | error e => rw [hb] at h; exact absurd h (by simp)
  | ok pr =>
    obtain ⟨rows, tot⟩ := pr
    rw [hb] at h
    injection h with h
    injection h with h1 h2
    subst h2
    refine ⟨rows, tot, rfl, rfl, rfl, rfl, ?_⟩
    rw [← h1]

/-- Decomposition of a successful create-order use case run: the user
check passed, the per-line loop finished without error on some
intermediate database, and the repository create succeeded on it. -/
theorem createOrderExecute_ok (db db2 : DB) (req : OrderCreate) (now : Nat)
    (row : OrderRow)
    (h : createOrderExecute db req now = (db2, Except.ok row)) :
    ∃ db1, processLines db now req.items = (db1, none) ∧
      orderRepoCreate db1 req now = Except.ok (db2, row) := by
  unfold createOrderExecute at h
  split at h
  · exact absurd h (by simp)
  · split at h
    · exact absurd h (by simp)
    · split at h
      · exact absurd h (by simp)
      · next db1 hp =>
        split at h
        · exact absurd h (by simp)
        · next db3 row3 hc =>
          injection h with h1 h2
          subst h1
          injection h2 with h2
          subst h2
          exact ⟨db1, hp, hc⟩

/-- Two lines for the same product pass the per-line loop only when their
combined quantity fits the initial stock: the first decrement is already
visible to the second check. -/
theorem processLines_two_same (db : DB) (now pid q1 q2 : Nat) (r : ProductRow)
    (hfind : findProductRow db.products pid = some r)
    (h : (processLines db now [⟨pid, q1⟩, ⟨pid, q2⟩]).2 = none) :
    q1 + q2 ≤ r.stock := by
  have hget : productGetById db pid = some (rowToProduct r) := by
    unfold productGetById
    rw [hfind]
    rfl
  unfold processLines at h
  rw [show (⟨pid, q1⟩ : OrderItemCreate).productId = pid from rfl,
    show (⟨pid, q1⟩ : OrderItemCreate).quantity = q1 from rfl, hget] at h
  simp only [] at h
  by_cases hact : (rowToProduct r).isActive
  · rw [if_neg (by simp [hact])] at h
    by_cases hcf : (rowToProduct r).canFulfillQuantity q1
    · rw [if_neg (by simp [hcf])] at h
      have hq1 : q1 ≤ r.stock := by
        have := hcf
        unfold Product.canFulfillQuantity at this
        simp only [Bool.and_eq_true, decide_eq_true_eq] at this
        exact this.1.2
      set u : ProductUpdate :=
        { stock := some (some ((rowToProduct r).stock - q1)) } with hu
      have hdb2 : (productRepoUpdate db pid u now).1
          = { db with
              products := db.products.map (fun x =>
                if x.id == pid then applyProductUpdate u now x else x) } := by
        unfold productRepoUpdate
        rw [hfind]
        rfl
      have hfind2 : findProductRow ((productRepoUpdate db pid u now).1).products pid
          = some (applyProductUpdate u now r) := by
        rw [hdb2]
        show (db.products.map (fun x =>
            if x.id == pid then applyProductUpdate u now x else x)).find?
            (fun x : ProductRow => x.id == pid)
          = some (applyProductUpdate u now r)
        exact find?_map_update (fun x : ProductRow => x.id == pid)
          (applyProductUpdate u now) (fun x => rfl) db.products r hfind
      have hget2 : productGetById ((productRepoUpdate db pid u now).1) pid
          = some (rowToProduct (applyProductUpdate u now r)) := by
        unfold productGetById
        rw [hfind2]
        rfl
      unfold processLines at h
      rw [show (⟨pid, q2⟩ : OrderItemCreate).productId = pid from rfl,
        show (⟨pid, q2⟩ : OrderItemCreate).quantity = q2 from rfl, hget2] at h
      simp only [] at h
      by_cases hact2 : (rowToProduct (applyProductUpdate u now r)).isActive
      · rw [if_neg (by simp [hact2])] at h
        by_cases hcf2 : (rowToProduct (applyProductUpdate u now r)).canFulfillQuantity q2
        · have hq2 : q2 ≤ (applyProductUpdate u now r).stock := by
            have := hcf2
            unfold Product.canFulfillQuantity at this
            simp only [Bool.and_eq_true, decide_eq_true_eq] at this
            exact this.1.2
          have hstock : (applyProductUpdate u now r).stock = r.stock - q1 := rfl
          rw [hstock] at hq2
          omega
        · rw [if_pos (by simp [hcf2])] at h
          exact absurd h (by simp)
      · rw [if_pos (by simp [Bool.not_eq_true] at hact2; simp [hact2])] at h
        exact absurd h (by simp)
    · rw [if_pos (by simp [Bool.not_eq_true] at hcf; simp [hcf])] at h
      exact absurd h (by simp)
  · rw [if_pos (by simp [Bool.not_eq_true] at hact; simp [hact])] at h
    exact absurd h (by simp)

/-! Claim theorems. -/

/-- C2: orderUpdateStatus succeeds exactly for the seven pairs
PENDING to CONFIRMED or CANCELLED, CONFIRMED to PROCESSING or CANCELLED,
PROCESSING to SHIPPED or CANCELLED, SHIPPED to DELIVERED; every other
pair, including self transitions and moves out of DELIVERED or CANCELLED,
fails with an error naming the rejected pair. -/
theorem c2_update_status_transition_table :
    ∀ s t : OrderStatus,
      ((orderUpdateStatus s t).isOk = true ↔
        (s, t) ∈ [(OrderStatus.pending, OrderStatus.confirmed),
                  (OrderStatus.pending, OrderStatus.cancelled),
                  (OrderStatus.confirmed, OrderStatus.processing),
                  (OrderStatus.confirmed, OrderStatus.cancelled),
                  (OrderStatus.processing, OrderStatus.shipped),
                  (OrderStatus.processing, OrderStatus.cancelled),
                  (OrderStatus.shipped, OrderStatus.delivered)]) ∧
      ((orderUpdateStatus s t).isOk = false →
        orderUpdateStatus s t = Except.error
          ("Cannot transition from " ++ s.value ++ " to " ++ t.value)) := by
  intro s t
  cases s <;> cases t <;>
    exact ⟨by decide, fun h => by first | rfl | exact absurd h (by decide)⟩

/-- C2 witness: the terminal state DELIVERED rejects a move to PENDING
with an error naming the pair, and PENDING to CONFIRMED succeeds. -/
theorem c2_update_status_transition_table_witness :
    orderUpdateStatus OrderStatus.delivered OrderStatus.pending
      = Except.error ("Cannot transition from "
          ++ OrderStatus.delivered.value ++ " to " ++ OrderStatus.pending.value) ∧
    (orderUpdateStatus OrderStatus.pending OrderStatus.confirmed).isOk = true :=
  ⟨(c2_update_status_transition_table OrderStatus.delivered
      OrderStatus.pending).2 rfl,
   (c2_update_status_transition_table OrderStatus.pending
      OrderStatus.confirmed).1.mpr (by decide)⟩

/-- C7: a valid price (positive, at most two fractional digits, at most
999999.99) round-trips exactly through product creation, because the
store keeps integer cents. -/
theorem c7_price_round_trip (db : DB) (pd : ProductCreate) (now : Nat)
    (hpos : 0 < pd.price) (hmax : pd.price ≤ (99999999 : ℚ) / 100)
    (hden : (pd.price * 100).den = 1) :
    (productRepoCreate db pd now).2.price = pd.price := by
  show ((pyInt (pd.price * 100) : ℚ)) / 100 = pd.price
  rw [pyInt_cast_of_den_one _ hden]
  exact mul_div_cancel_right₀ pd.price (by norm_num)

/-- C7 witness: price 19.99 (as 1999/100) reads back exactly. -/
theorem c7_price_round_trip_witness :
    (0 : ℚ) < (1999 : ℚ) / 100 ∧
    (productRepoCreate exDB
      { name := "Widget", price := (1999 : ℚ) / 100, stock := 5,
        category := "Electronics", description := none } 0).2.price
      = (1999 : ℚ) / 100 :=
  ⟨by norm_num,
   c7_price_round_trip exDB
     { name := "Widget", price := (1999 : ℚ) / 100, stock := 5,
       category := "Electronics", description := none } 0
     (by norm_num) (by norm_num)
     (by
       have h : ((1999 : ℚ) / 100 * 100) = (1999 : ℚ) := by norm_num
       rw [h]
       exact Rat.den_ofNat 1999)⟩

/-- C5: when the requested user is absent, create-order fails with the
user-not-found error, and when the user exists but is inactive it fails
with the user-not-active error; in both cases the returned database is
exactly the input database, so the persisted stock of every referenced
product is unchanged. -/
theorem c5_user_absent_or_inactive_leaves_db (db : DB) (req : OrderCreate)
    (now : Nat) :
    (findUserRow db.users req.userId = none →
      createOrderExecute db req now
        = (db, Except.error
            ("User with id " ++ toString req.userId ++ " not found"))) ∧
    (∀ u, findUserRow db.users req.userId = some u → u.isActive = false →
      createOrderExecute db req now
        = (db, Except.error
            ("User with id " ++ toString req.userId ++ " is not active"))) := by
  constructor
  · intro hnone
    unfold createOrderExecute
    rw [hnone]
  · intro u hu hina
    unfold createOrderExecute
    rw [hu]
    simp [hina]

/-- C5 witness: the request naming the absent user id 9 fails with the
not-found error, the request naming the inactive user id 2 fails with the
not-active error, and both leave the database unchanged. -/
theorem c5_user_absent_or_inactive_leaves_db_witness :
    createOrderExecute exDB exAbsentUserReq 0
      = (exDB, Except.error
          ("User with id " ++ toString exAbsentUserReq.userId
            ++ " not found")) ∧
    createOrderExecute exDB exInactiveUserReq 0
      = (exDB, Except.error
          ("User with id " ++ toString exInactiveUserReq.userId
            ++ " is not active")) :=
  ⟨(c5_user_absent_or_inactive_leaves_db exDB exAbsentUserReq 0).1 rfl,
   (c5_user_absent_or_inactive_leaves_db exDB exInactiveUserReq 0).2
      exInactiveUser rfl rfl⟩

/-- C6: every successfully created order is persisted with status
PENDING; the OrderCreate DTO carries no status field, so no caller
supplied status can influence it. -/
theorem c6_created_order_is_pending (db db2 : DB) (req : OrderCreate)
    (now : Nat) (row : OrderRow)
    (h : createOrderExecute db req now = (db2, Except.ok row)) :
    row.status = OrderStatus.pending ∧ row ∈ db2.orders := by
  obtain ⟨db1, hp, hc⟩ := createOrderExecute_ok db db2 req now row h
  obtain ⟨rows, tot, hb, hst, hit, htot, hord⟩ :=
    orderRepoCreate_ok db1 db2 req now row hc
  refine ⟨hst, ?_⟩
  rw [hord]
  simp

/-- C6 witness: the concrete successful creation persists status pending. -/
theorem c6_created_order_is_pending_witness :
    exResultRow.status = OrderStatus.pending ∧
    exResultRow ∈ exResult.1.orders :=
  c6_created_order_is_pending exDB exResult.1 exTwoLineReq 0 exResultRow (by rfl)

/-- C3: for every successfully created order, each persisted line item
satisfies subtotal = unit price times quantity exactly, and the persisted
total equals the sum of the item subtotals to within one cent. -/
theorem c3_subtotals_and_total (db db2 : DB) (req : OrderCreate) (now : Nat)
    (row : OrderRow)
    (h : createOrderExecute db req now = (db2, Except.ok row)) :
    (∀ it ∈ (rowToOrder row).items,
      it.subtotal = it.unitPrice * (it.quantity : ℚ)) ∧
    |(rowToOrder row).total
      - ((rowToOrder row).items.map (fun it => it.subtotal)).sum| ≤ 1 / 100 := by
  obtain ⟨db1, hp, hc⟩ := createOrderExecute_ok db db2 req now row h
  obtain ⟨rows, tot, hb, hst, hit, htot, hord⟩ :=
    orderRepoCreate_ok db1 db2 req now row hc
  obtain ⟨hrel, hsum⟩ := buildOrderItems_spec db1 req.items rows tot hb
  have hitems : (rowToOrder row).items = row.items.map rowToOrderItem := rfl
  constructor
  · intro it hmem
    rw [hitems, hit] at hmem
    obtain ⟨r, hr, hreq⟩ := List.mem_map.mp hmem
    subst hreq
    show (r.subtotalCents : ℚ) / 100
      = (r.unitPriceCents : ℚ) / 100 * (r.quantity : ℚ)
    have hz : ((r.subtotalCents : ℤ) : ℚ)
        = ((r.unitPriceCents : ℤ) : ℚ) * ((r.quantity : ℕ) : ℚ) := by
      rw [← hrel r hr]
      push_cast
      ring
    rw [hz]
    ring
  · have htotal : (rowToOrder row).total = (row.totalCents : ℚ) / 100 := rfl
    have hmap : (rowToOrder row).items.map (fun it => it.subtotal)
        = (rows.map (fun r => r.subtotalCents)).map
            (fun c : ℤ => ((c : ℚ) / 100)) := by
      rw [hitems, hit, List.map_map, List.map_map]
      rfl
    rw [htotal, htot, hsum, hmap, intListSum_cast_div100]
    simp

/-- C3 witness: in the concrete successful creation, the first item
satisfies the exact subtotal equation and the total matches the item
subtotal sum within one cent. -/
theorem c3_subtotals_and_total_witness :
    |(rowToOrder exResultRow).total
      - ((rowToOrder exResultRow).items.map (fun it => it.subtotal)).sum|
      ≤ 1 / 100 :=
  (c3_subtotals_and_total exDB exResult.1 exTwoLineReq 0 exResultRow (by rfl)).2

/-- C1 evidence: on a request whose first line succeeds and whose second
line has insufficient stock, create-order fails with InsufficientStock but
the stock decrement of the first line stays durably applied: product 1
starts at stock 5 and ends at stock 3 in the returned database. -/
theorem c1_partial_stock_decrement_persists :
    (createOrderExecute exDB exPartialFailReq 0).2
      = Except.error
          "Insufficient stock for product 2. Requested: 5, Available: 1" ∧
    ((exDB.products.find? (fun r => r.id == 1)).map (fun r => r.stock)
      = some 5) ∧
    (((createOrderExecute exDB exPartialFailReq 0).1.products.find?
        (fun r => r.id == 1)).map (fun r => r.stock) = some 3) :=
  ⟨rfl, rfl, rfl⟩

/-- C8 evidence: the SQLite order repository listing has no sort
parameters and always orders by created_at descending, so a page that the
claim requires to be sorted by total ascending comes back ordered by
created_at descending and is not ascending in total. -/
theorem c8_get_all_hardcodes_created_at_desc :
    orderRepoGetAll exOrdersDB none none 0 100 = [exOrderB, exOrderA] ∧
    ¬ List.Sorted (· ≤ ·)
        ((orderRepoGetAll exOrdersDB none none 0 100).map
          (fun o => o.totalCents)) := by
  refine ⟨rfl, ?_⟩
  intro h
  have hl : (orderRepoGetAll exOrdersDB none none 0 100).map
      (fun o => o.totalCents) = [5000, 1000] := rfl
  rw [hl] at h
  have h2 : (5000 : ℤ) ≤ 1000 := List.rel_of_sorted_cons h 1000 (by decide)
  omega

/-- C10 counterexample: a payload that sets only the stock field also
changes the persisted updated_at column (the AFTER UPDATE trigger), so the
update is not frame-preserving on every field not present in the payload:
updated_at goes from 0 to 7. -/
theorem c10_updated_at_changes_counterexample :
    exStockPayload.name = none ∧ exStockPayload.price = none ∧
    exStockPayload.category = none ∧ exStockPayload.description = none ∧
    exStockPayload.isActive = none ∧
    exLaptop.updatedAt = 0 ∧
    (((productRepoUpdate exDB 1 exStockPayload 7).1.products.find?
        (fun r => r.id == 1)).map (fun r => (r.stock, r.updatedAt))
      = some (3, 7)) :=
  ⟨rfl, rfl, rfl, rfl, rfl, rfl, rfl⟩


/-- C4: within one create-order request, lines are processed in input
order and the stock decrement of an earlier line is visible to the stock
check of a later line: a request with two lines for the same product with
quantities q1 and q2 against stock s succeeds only if q1 + q2 is at most
s. -/
theorem c4_same_product_lines_see_decrement (db : DB) (now uid pid q1 q2 : Nat)
    (sa nt : Option String) (r : ProductRow)
    (hfind : findProductRow db.products pid = some r)
    (hok : (createOrderExecute db
      { userId := uid, items := [⟨pid, q1⟩, ⟨pid, q2⟩],
        shippingAddress := sa, notes := nt } now).2.isOk = true) :
    q1 + q2 ≤ r.stock := by
  rcases hres : createOrderExecute db
    { userId := uid, items := [⟨pid, q1⟩, ⟨pid, q2⟩],
      shippingAddress := sa, notes := nt } now with ⟨db2, res⟩
  rw [hres] at hok
  cases res with
  | error e => exact absurd hok (by simp [Except.isOk, Except.toBool])
  | ok row =>
    obtain ⟨db1, hp, hc⟩ := createOrderExecute_ok db db2 _ now row hres
    refine processLines_two_same db now pid q1 q2 r hfind ?_
    rw [show (processLines db now [⟨pid, q1⟩, ⟨pid, q2⟩]).2
        = (processLines db now
            ({ userId := uid, items := [⟨pid, q1⟩, ⟨pid, q2⟩],
               shippingAddress := sa, notes := nt } : OrderCreate).items).2
      from rfl, hp]

/-- C4 witness: two lines of 2 and 3 units of product 1 against stock 5
succeed, and the theorem yields 2 + 3 at most 5. -/
theorem c4_same_product_lines_see_decrement_witness :
    2 + 3 ≤ exLaptop.stock :=
  c4_same_product_lines_see_decrement exDB 0 1 1 2 3 none none exLaptop rfl
    (by rfl)

/-- C9: a page listed under a status filter contains only orders with
that persisted status, and the count under the same filter equals the
number of all matching orders, independent of skip and limit. -/
theorem c9_status_filter_and_count (db : DB) (X : OrderStatus)
    (skip limit : Nat) :
    (∀ o ∈ orderRepoGetAll db none (some X) skip limit, o.status = X) ∧
    orderRepoCount db none (some X)
      = (db.orders.filter (fun o => decide (o.status = X))).length := by
  constructor
  · intro o ho
    unfold orderRepoGetAll at ho
    have h1 := List.mem_of_mem_take ho
    have h2 := List.mem_of_mem_drop h1
    rw [mem_sortDescBy] at h2
    have h3 := (List.mem_filter.mp h2).2
    simpa [ordersMatchFilters] using h3
  · unfold orderRepoCount
    have hcg : ∀ o ∈ db.orders,
        ordersMatchFilters none (some X) o = decide (o.status = X) := by
      intro o _
      simp [ordersMatchFilters]
    rw [List.filter_congr hcg]

/-- C9 witness: in the concrete database the confirmed page member has
status confirmed and the confirmed count is the filtered length. -/
theorem c9_status_filter_and_count_witness :
    exOrderB.status = OrderStatus.confirmed ∧
    orderRepoCount exOrdersDB none (some OrderStatus.confirmed)
      = (exOrdersDB.orders.filter
          (fun o => decide (o.status = OrderStatus.confirmed))).length :=
  ⟨(c9_status_filter_and_count exOrdersDB OrderStatus.confirmed 0 100).1
      exOrderB (by decide),
   (c9_status_filter_and_count exOrdersDB OrderStatus.confirmed 0 100).2⟩


/-- C10 amended: a partial update on an existing product or order changes
exactly the fields present in the payload plus the server-maintained
updated_at column, which the AFTER UPDATE trigger sets on every non-empty
update; every other field of the record, every other row, and the other
tables keep their previous values, and a payload with no updatable fields
returns the existing record with no write performed. -/
theorem c10_partial_update_frame_amended :
    (∀ (db : DB) (pid : Nat) (u : ProductUpdate) (now : Nat) (r : ProductRow),
      findProductRow db.products pid = some r →
      (u.hasField = false →
        productRepoUpdate db pid u now = (db, some (rowToProduct r))) ∧
      (u.hasField = true →
        ∃ r2, findProductRow (productRepoUpdate db pid u now).1.products pid
            = some r2 ∧
          (productRepoUpdate db pid u now).2 = some (rowToProduct r2) ∧
          r2.id = r.id ∧
          r2.name = (match u.name with | some (some v) => v | _ => r.name) ∧
          r2.priceCents = (match u.price with
            | some (some v) => pyInt (v * 100)
            | _ => r.priceCents) ∧
          r2.stock = (match u.stock with | some (some v) => v | _ => r.stock) ∧
          r2.category = (match u.category with
            | some (some v) => v
            | _ => r.category) ∧
          r2.description = (match u.description with
            | some v => v
            | _ => r.description) ∧
          r2.isActive = (match u.isActive with
            | some (some v) => v
            | _ => r.isActive) ∧
          r2.createdAt = r.createdAt ∧
          r2.updatedAt = now ∧
          (productRepoUpdate db pid u now).1.users = db.users ∧
          (productRepoUpdate db pid u now).1.orders = db.orders ∧
          ∀ x ∈ db.products, x.id ≠ pid →
            x ∈ (productRepoUpdate db pid u now).1.products)) ∧
    (∀ (db : DB) (oid : Nat) (u : OrderUpdate) (now : Nat) (r : OrderRow),
      findOrderRow db.orders oid = some r →
      (u.hasField = false →
        orderRepoUpdate db oid u now = (db, some r)) ∧
      (u.hasField = true →
        ∃ r2, findOrderRow (orderRepoUpdate db oid u now).1.orders oid
            = some r2 ∧
          (orderRepoUpdate db oid u now).2 = some r2 ∧
          r2.id = r.id ∧
          r2.userId = r.userId ∧
          r2.status = (match u.status with
            | some (some v) => v
            | _ => r.status) ∧
          r2.totalCents = r.totalCents ∧
          r2.shippingAddress = (match u.shippingAddress with
            | some v => v
            | _ => r.shippingAddress) ∧
          r2.notes = (match u.notes with | some v => v | _ => r.notes) ∧
          r2.createdAt = r.createdAt ∧
          r2.updatedAt = now ∧
          r2.items = r.items ∧
          (orderRepoUpdate db oid u now).1.users = db.users ∧
          (orderRepoUpdate db oid u now).1.products = db.products ∧
          ∀ x ∈ db.orders, x.id ≠ oid →
            x ∈ (orderRepoUpdate db oid u now).1.orders)) := by
  constructor
  · intro db pid u now r hfind
    constructor
    · intro hno
      unfold productRepoUpdate
      rw [hfind]
      simp [hno]
    · intro hyes
      have hrepo : productRepoUpdate db pid u now
          = ({ db with
                products := db.products.map (fun x =>
                  if x.id == pid then applyProductUpdate u now x else x) },
             (findProductRow (db.products.map (fun x =>
                if x.id == pid then applyProductUpdate u now x else x))
                pid).map rowToProduct) := by
        unfold productRepoUpdate
        rw [hfind]
        simp [hyes]
      have hfind2 : findProductRow (db.products.map (fun x =>
          if x.id == pid then applyProductUpdate u now x else x)) pid
          = some (applyProductUpdate u now r) := by
        show (db.products.map (fun x =>
            if x.id == pid then applyProductUpdate u now x else x)).find?
            (fun x : ProductRow => x.id == pid)
          = some (applyProductUpdate u now r)
        exact find?_map_update (fun x : ProductRow => x.id == pid)
          (applyProductUpdate u now) (fun x => rfl) db.products r hfind
      refine ⟨applyProductUpdate u now r, ?_, ?_, rfl, rfl, rfl, rfl, rfl,
        rfl, rfl, rfl, rfl, ?_, ?_, ?_⟩
      · rw [hrepo]
        exact hfind2
      · rw [hrepo]
        show (findProductRow (db.products.map (fun x =>
            if x.id == pid then applyProductUpdate u now x else x))
            pid).map rowToProduct
          = some (rowToProduct (applyProductUpdate u now r))
        rw [hfind2]
        rfl
      · rw [hrepo]
      · rw [hrepo]
      · intro x hx hne
        rw [hrepo]
        show x ∈ List.map (fun y : ProductRow =>
          if y.id == pid then applyProductUpdate u now y else y) db.products
        have hcond : (x.id == pid) = false := by simp [hne]
        have hmm := List.mem_map_of_mem (fun y : ProductRow =>
          if y.id == pid then applyProductUpdate u now y else y) hx
        simpa [hcond] using hmm
  · intro db oid u now r hfind
    constructor
    · intro hno
      unfold orderRepoUpdate
      rw [hfind]
      simp [hno]
    · intro hyes
      have hrepo : orderRepoUpdate db oid u now
          = ({ db with
                orders := db.orders.map (fun x =>
                  if x.id == oid then applyOrderUpdate u now x else x) },
             findOrderRow (db.orders.map (fun x =>
                if x.id == oid then applyOrderUpdate u now x else x)) oid) := by
        unfold orderRepoUpdate
        rw [hfind]
        simp [hyes]
      have hfind2 : findOrderRow (db.orders.map (fun x =>
          if x.id == oid then applyOrderUpdate u now x else x)) oid
          = some (applyOrderUpdate u now r) := by
        show (db.orders.map (fun x =>
            if x.id == oid then applyOrderUpdate u now x else x)).find?
            (fun x : OrderRow => x.id == oid)
          = some (applyOrderUpdate u now r)
        exact find?_map_update (fun x : OrderRow => x.id == oid)
          (applyOrderUpdate u now) (fun x => rfl) db.orders r hfind
      refine ⟨applyOrderUpdate u now r, ?_, ?_, rfl, rfl, rfl, rfl, rfl,
        rfl, rfl, rfl, rfl, ?_, ?_, ?_⟩
      · rw [hrepo]
        exact hfind2
      · rw [hrepo]
        exact hfind2
      · rw [hrepo]
      · rw [hrepo]
      · intro x hx hne
        rw [hrepo]
        show x ∈ List.map (fun y : OrderRow =>
          if y.id == oid then applyOrderUpdate u now y else y) db.orders
        have hcond : (x.id == oid) = false := by simp [hne]
        have hmm := List.mem_map_of_mem (fun y : OrderRow =>
          if y.id == oid then applyOrderUpdate u now y else y) hx
        simpa [hcond] using hmm

/-- C10 witness: empty payloads on an existing product and an existing
order return the records unchanged with no write. -/
theorem c10_partial_update_frame_amended_witness :
    productRepoUpdate exDB 1 exEmptyProductPayload 7
      = (exDB, some (rowToProduct exLaptop)) ∧
    orderRepoUpdate exOrdersDB 1 exEmptyOrderPayload 7
      = (exOrdersDB, some exOrderA) :=
  ⟨(c10_partial_update_frame_amended.1 exDB 1 exEmptyProductPayload 7
      exLaptop rfl).1 rfl,
   (c10_partial_update_frame_amended.2 exOrdersDB 1 exEmptyOrderPayload 7
      exOrderA rfl).1 rfl⟩

end ECom
